import Mathlib

/-!
Verification of the frame-analysis pipeline of the estudio backend
(`app/services/pdi_service.py`) by a shallow embedding in Lean 4.

Modelling conventions:
* Machine integers of the Python/pydantic models become `ℤ` (or `ℕ` for values
  known non-negative, such as rounded Hough coordinates).
* OpenCV raster primitives (`GaussianBlur`, `cvtColor`, `inRange`, `erode`,
  `dilate`, `findContours`, `HoughCircles`, mask rasterization) operate on
  opaque image data; they are modelled as fields of a `CVOps` record over an
  abstract image type, so every theorem quantifies over their behaviour.
  The arithmetic the service itself performs (dominance tests, area filters,
  aspect-ratio tests, box construction) is embedded concretely.
* `cv2.contourArea` on integer contour points is Green's (shoelace) formula,
  embedded exactly; `cv2.boundingRect` is the min/max box with the OpenCV
  `+1` width/height convention, embedded exactly.
* `cv2.arcLength` (sum of Euclidean distances) and `cv2.approxPolyDP`
  (Douglas-Peucker) are library primitives kept abstract as per-contour data.
* Python float arithmetic is modelled by exact rational arithmetic: the
  float64 constant `np.pi` becomes an explicit parameter `piF : ℚ`, and float
  literals (0.7, 0.04, ...) become the corresponding rationals.
* Python exceptions are modelled with `Except PyErr`; the debug sink
  (`_save_debug_image`: `mkdir` + `cv2.imwrite`) is a record whose `emit`
  either raises or returns the Bool that `cv2.imwrite` returns (which the
  service discards, exactly as in the source).
-/

namespace PDI

/-- Model of `app/models/geometry.py` `RGBColor`. -/
structure RGBColor where
  r : ℤ
  g : ℤ
  b : ℤ
deriving DecidableEq

/-- Model of `app/models/geometry.py` `Point`. -/
structure Point where
  x : ℤ
  y : ℤ
deriving DecidableEq

/-- Model of `app/models/geometry.py` `Size`. -/
structure Size where
  width : ℤ
  height : ℤ
deriving DecidableEq

/-- Model of `app/models/geometry.py` `ROI`. -/
structure ROI where
  position : Point
  size : Size
deriving DecidableEq

/-- Model of `app/models/geometry.py` `Circle` (x, y, r plus the float area computed at
construction time, kept as an exact rational). -/
structure Circle where
  x : ℕ
  y : ℕ
  r : ℕ
  area : ℚ
deriving DecidableEq

/-- An HSV triple as passed to `cv2.inRange` (`np.array([h, s, v])`). -/
structure HSV where
  h : ℤ
  s : ℤ
  v : ℤ
deriving DecidableEq

/-- Model of `app/models/pdi.py` `PDIColorSegmentationParameters`. -/
structure PDIColorSegmentationParameters where
  lower_color : RGBColor
  upper_color : RGBColor
  min_area : ℤ
  max_area : ℤ
deriving DecidableEq

/-- Model of `app/models/pdi.py` `PDIShapeDetectionShape`. -/
inductive PDIShapeDetectionShape where
  | circle
  | rectangle
  | triangle
deriving DecidableEq

/-- Model of `app/models/pdi.py` `RectangleType`. -/
inductive RectangleType where
  | any
  | square
  | horizontal
  | vertical
  | custom
deriving DecidableEq

/-- Model of `app/models/pdi.py` `AspectRatio` (pydantic model with fields
`min_ratio`, `max_ratio`; renamed `rmin`, `rmax` here). -/
structure AspectRange where
  rmin : ℚ
  rmax : ℚ
deriving DecidableEq

/-- The pydantic `Field(ge=0.1, le=10.0)` validation on both fields of
`AspectRatio`. -/
def AspectRange.Valid (a : AspectRange) : Prop :=
  1/10 ≤ a.rmin ∧ a.rmin ≤ 10 ∧ 1/10 ≤ a.rmax ∧ a.rmax ≤ 10

/-- Model of `app/models/pdi.py` `PDIShapeDetectionParameters` (field `custom_ratio`
renamed `customR`). -/
structure PDIShapeDetectionParameters where
  shape : PDIShapeDetectionShape
  rectangle_type : RectangleType := RectangleType.any
  min_area : ℤ := 5000
  max_area : ℤ := 100000
  customR : Option AspectRange := none
deriving DecidableEq

/-- Python exceptions that the service can raise. `sinkError` stands for an
exception escaping `_save_debug_image` (e.g. `mkdir` failing); `keyError` for
the `KeyError` of the `limits[...]` lookup in `_get_aspect_ratio_limits`. -/
inductive PyErr where
  | sinkError
  | keyError
deriving DecidableEq

/-- A contour as returned by `cv2.findContours(..., RETR_EXTERNAL,
CHAIN_APPROX_SIMPLE)`: its integer vertex list, together with the values of
the two OpenCV primitives the service applies to it, kept abstract:
`arcLen` is `cv2.arcLength(contour, True)` and `approxAt eps` is
`cv2.approxPolyDP(contour, eps, True)`. -/
structure Contour where
  points : List Point
  arcLen : ℚ
  approxAt : ℚ → List Point

/-- A circle as produced by `np.uint16(np.around(...))` on a row of the
`cv2.HoughCircles` output: non-negative integer centre and radius. -/
structure HoughCircle where
  x : ℕ
  y : ℕ
  r : ℕ
deriving DecidableEq

/-- A bounding box `(x, y, w, h)` as returned by the service. -/
structure Box where
  x : ℤ
  y : ℤ
  w : ℤ
  h : ℤ
deriving DecidableEq

/-- The OpenCV raster primitives used by `PDIService`, abstracted over an
opaque image type `Img`. Annotation-only drawing on debug copies
(`drawContours`, `rectangle`, `putText` on `debug_frame`) is elided: it feeds
only the debug sink, never the returned boxes. -/
structure CVOps (Img : Type) where
  /-- Model of `frame[y : y+h, x : x+w]` (numpy slicing; clamps, never raises). -/
  crop : Img → ROI → Img
  /-- Model of `cv2.GaussianBlur(img, (7, 7), sigma)`. -/
  gaussianBlur : Img → ℚ → Img
  /-- Model of `cv2.cvtColor(img, cv2.COLOR_BGR2HSV)`. -/
  bgr2hsv : Img → Img
  /-- Model of `cv2.cvtColor(img, cv2.COLOR_BGR2GRAY)`. -/
  bgr2gray : Img → Img
  /-- Model of `cv2.threshold(img, 127, 255, cv2.THRESH_BINARY)[1]`. -/
  threshold127 : Img → Img
  /-- Model of `cv2.inRange(img, lo, hi)` with HSV bound triples. -/
  inRange : Img → HSV → HSV → Img
  /-- Model of `cv2.bitwise_or(a, b)`. -/
  bitwiseOr : Img → Img → Img
  /-- Model of `cv2.bitwise_and(img, img, mask=mask)`. -/
  maskedAnd : Img → Img → Img
  /-- Model of `cv2.erode(img, np.ones((5,5)), iterations=n)`. -/
  erode : Img → ℕ → Img
  /-- Model of `cv2.dilate(img, np.ones((5,5)), iterations=n)`. -/
  dilate : Img → ℕ → Img
  /-- Model of `cv2.findContours(img, RETR_EXTERNAL, CHAIN_APPROX_SIMPLE)[0]`. -/
  findContours : Img → List Contour
  /-- Model of `PDIService._find_circles(blurred, params)`: `cv2.HoughCircles` with
  `dp=1, minDist=50, param1=50, param2=30` and radius bounds
  `int(sqrt(min_area/pi))`, `int(sqrt(max_area/pi))` derived from the two
  area arguments; `none` models the `None` return, `some cs` the rounded
  rows of `circles[0]`. -/
  findCircles : Img → ℤ → ℤ → Option (List HoughCircle)
  /-- Model of `cv2.countNonZero(cv2.bitwise_and(circle_mask, contour_mask))` for the
  filled-disk mask of the circle and the filled mask of the contour
  (`PDIService._validate_circle`, rasterization kept abstract). -/
  overlapArea : Circle → Contour → ℕ

/-- The debug sink: one `emit` per `_save_debug_image` call. `Except.error`
models an exception escaping the call (e.g. `Path.mkdir` failing);
`Except.ok b` models a completed call whose `cv2.imwrite` returned `b`. -/
structure DebugSink (Img : Type) where
  emit : ℕ → String → Img → ℤ → Except PyErr Bool

/-- Model of `PDIService._save_debug_image(step, name, image, timestamp)`: performs the
emission and discards the Bool that `cv2.imwrite` returns. -/
def saveDebugImage {Img : Type} (sink : DebugSink Img) (step : ℕ) (name : String)
    (image : Img) (ts : ℤ) : Except PyErr Unit :=
  (sink.emit step name image ts).map (fun _ => ())

/-- A sink none of whose emissions raises (each call runs to completion and
returns the Bool of its `cv2.imwrite`, successful or not). -/
def DebugSink.NeverRaises {Img : Type} (sink : DebugSink Img) : Prop :=
  ∀ step name image ts, ∃ b, sink.emit step name image ts = Except.ok b

/-- Model of `PDIService._create_color_mask(hsv_frame, params)`, translated clause by
clause from the source. -/
def createColorMask {Img : Type} (ops : CVOps Img) (hsv_frame : Img)
    (params : PDIColorSegmentationParameters) : Img :=
  if params.lower_color.r > params.lower_color.g ∧
      params.lower_color.r > params.lower_color.b then
    ops.bitwiseOr
      (ops.inRange hsv_frame ⟨0, 120, 70⟩ ⟨10, 255, 255⟩)
      (ops.inRange hsv_frame ⟨170, 120, 70⟩ ⟨180, 255, 255⟩)
  else if params.lower_color.g > params.lower_color.r ∧
      params.lower_color.g > params.lower_color.b then
    ops.inRange hsv_frame ⟨35, 100, 100⟩ ⟨85, 255, 255⟩
  else if params.lower_color.b > params.lower_color.r ∧
      params.lower_color.b > params.lower_color.g then
    ops.inRange hsv_frame ⟨100, 100, 100⟩ ⟨140, 255, 255⟩
  else
    ops.inRange hsv_frame ⟨0, 100, 100⟩ ⟨180, 255, 255⟩

/-- The strictly dominant RGB channel of a colour, per the spec's
classification: red iff `r > g` and `r > b`, similarly green and blue,
otherwise no strict dominance. -/
inductive Dominance where
  | red
  | green
  | blue
  | noDominance
deriving DecidableEq

/-- Classify a colour by its strictly dominant channel (spec-side
definition). -/
def dominance (c : RGBColor) : Dominance :=
  if c.r > c.g ∧ c.r > c.b then Dominance.red
  else if c.g > c.r ∧ c.g > c.b then Dominance.green
  else if c.b > c.r ∧ c.b > c.g then Dominance.blue
  else Dominance.noDominance

/-- The range mask the spec prescribes for each dominance class, written from
the spec's wording: red-dominant gives the union of the two wrap-around hue
bands, green and blue give their single bands, and no strict dominance gives
the full-hue band. Depends only on the lower colour. -/
def colorMaskSpec {Img : Type} (ops : CVOps Img) (hsv_frame : Img)
    (lower : RGBColor) : Img :=
  match dominance lower with
  | Dominance.red =>
      ops.bitwiseOr
        (ops.inRange hsv_frame ⟨0, 120, 70⟩ ⟨10, 255, 255⟩)
        (ops.inRange hsv_frame ⟨170, 120, 70⟩ ⟨180, 255, 255⟩)
  | Dominance.green => ops.inRange hsv_frame ⟨35, 100, 100⟩ ⟨85, 255, 255⟩
  | Dominance.blue => ops.inRange hsv_frame ⟨100, 100, 100⟩ ⟨140, 255, 255⟩
  | Dominance.noDominance => ops.inRange hsv_frame ⟨0, 100, 100⟩ ⟨180, 255, 255⟩

/-- C1: the range mask is selected solely by the strictly dominant RGB channel
of the lower colour, with exactly the four fixed HSV band choices of the spec:
red-dominant the union of hue [0,10] and hue [170,180] (sat [120,255],
val [70,255]); green-dominant hue [35,85]; blue-dominant hue [100,140]; no
strict dominance hue [0,180] (the latter three with sat and val [100,255]). -/
theorem createColorMask_eq_spec {Img : Type} (ops : CVOps Img) (hsv_frame : Img)
    (params : PDIColorSegmentationParameters) :
    createColorMask ops hsv_frame params =
      colorMaskSpec ops hsv_frame params.lower_color := by
  unfold createColorMask colorMaskSpec dominance
  by_cases h1 : params.lower_color.r > params.lower_color.g ∧
      params.lower_color.r > params.lower_color.b
  · simp [h1]
  · by_cases h2 : params.lower_color.g > params.lower_color.r ∧
        params.lower_color.g > params.lower_color.b
    · simp [h1, h2]
    · by_cases h3 : params.lower_color.b > params.lower_color.r ∧
          params.lower_color.b > params.lower_color.g
      · simp [h1, h2, h3]
      · simp [h1, h2, h3]

/-- The cyclic shoelace sum `Σ (x_i * y_{i+1} - x_{i+1} * y_i)` over the
closed polygon, as accumulated by `cv2.contourArea`; `first` is the vertex
the final edge closes back to. -/
def shoelaceAux (first : Point) : List Point → ℤ
  | [] => 0
  | [p] => p.x * first.y - first.x * p.y
  | p :: q :: rest => (p.x * q.y - q.x * p.y) + shoelaceAux first (q :: rest)

/-- The shoelace sum of a vertex list, closing the polygon back to its head. -/
def shoelace : List Point → ℤ
  | [] => 0
  | p :: ps => shoelaceAux p (p :: ps)

/-- Model of `cv2.contourArea(contour)`: half the absolute value of the shoelace sum
of the contour's vertices (Green's formula). -/
def contourArea (c : Contour) : ℚ :=
  ((shoelace c.points).natAbs : ℚ) / 2

/-- Model of `cv2.boundingRect(points)`: the minimal axis-aligned box of the points,
with OpenCV's inclusive-pixel convention `w = max x - min x + 1`,
`h = max y - min y + 1`. Contours from `findContours` are never empty; the
empty case is given a zero box. -/
def boundingRect : List Point → Box
  | [] => ⟨0, 0, 0, 0⟩
  | p :: rest =>
      let mnx := rest.foldl (fun a q => min a q.x) p.x
      let mny := rest.foldl (fun a q => min a q.y) p.y
      let mxx := rest.foldl (fun a q => max a q.x) p.x
      let mxy := rest.foldl (fun a q => max a q.y) p.y
      ⟨mnx, mny, mxx - mnx + 1, mxy - mny + 1⟩

/-- The area filter of `_find_bounding_boxes`:
`min_area <= area <= max_area` on `cv2.contourArea(contour)`. -/
def areaInRange (min_area max_area : ℤ) (c : Contour) : Bool :=
  decide ((min_area : ℚ) ≤ contourArea c ∧ contourArea c ≤ (max_area : ℚ))

/-- The accumulation loop of `_find_bounding_boxes`: for each contour whose
area passes the filter, append `cv2.boundingRect(contour)` to the list. -/
def findBoundingBoxesCore (contours : List Contour)
    (min_area max_area : ℤ) : List Box :=
  contours.foldl
    (fun acc c =>
      if areaInRange min_area max_area c then acc ++ [boundingRect c.points]
      else acc)
    []

/-- Model of `PDIService._find_bounding_boxes(original_frame, mask, min_area, max_area,
timestamp)`: contour extraction, the area-filtered accumulation loop, then the
two debug emissions (annotation drawing on the debug copies elided). -/
def findBoundingBoxes {Img : Type} (ops : CVOps Img) (sink : DebugSink Img)
    (original_frame mask : Img) (min_area max_area : ℤ) (ts : ℤ) :
    Except PyErr (List Box) := do
  let contours := ops.findContours mask
  let boxes := findBoundingBoxesCore contours min_area max_area
  saveDebugImage sink 7 "contours" original_frame ts
  saveDebugImage sink 8 "bounding_boxes" original_frame ts
  pure boxes

/-- Model of `PDIService._apply_morphology(mask)`: erode once, dilate twice, with the
5×5 all-ones kernel. -/
def applyMorphology {Img : Type} (ops : CVOps Img) (mask : Img) : Img :=
  ops.dilate (ops.erode mask 1) 2

/-- The cleaned mask the colour-segmentation pipeline feeds to contour
extraction: crop, 7×7 Gaussian blur (sigma 0), BGR→HSV, range mask,
morphology. -/
def cleanedMask {Img : Type} (ops : CVOps Img) (frame : Img) (roi : ROI)
    (params : PDIColorSegmentationParameters) : Img :=
  applyMorphology ops
    (createColorMask ops
      (ops.bgr2hsv (ops.gaussianBlur (ops.crop frame roi) 0)) params)

/-- Model of `PDIService.process_frame_color_segmentation(frame, roi, params,
timestamp)`, stage for stage: the six debug emissions, the crop, blur,
HSV conversion, mask, morphology, masked preview, and the final contour/area
filter. -/
def processFrameColorSegmentation {Img : Type} (ops : CVOps Img)
    (sink : DebugSink Img) (frame : Img) (roi : ROI)
    (params : PDIColorSegmentationParameters) (ts : ℤ) :
    Except PyErr (List Box) := do
  saveDebugImage sink 1 "original" frame ts
  let roi_frame := ops.crop frame roi
  saveDebugImage sink 2 "roi" roi_frame ts
  let processed_frame := ops.gaussianBlur roi_frame 0
  let hsv_frame := ops.bgr2hsv processed_frame
  saveDebugImage sink 3 "hsv" hsv_frame ts
  let mask := createColorMask ops hsv_frame params
  saveDebugImage sink 4 "mask" mask ts
  let mask2 := applyMorphology ops mask
  saveDebugImage sink 5 "mask_morphology" mask2 ts
  let masked_result := ops.maskedAnd roi_frame mask2
  saveDebugImage sink 6 "masked_result" masked_result ts
  findBoundingBoxes ops sink roi_frame mask2 params.min_area params.max_area ts

/-- If an emission cannot raise, `_save_debug_image` completes and returns
nothing (the `cv2.imwrite` Bool is discarded). -/
theorem saveDebugImage_ok {Img : Type} {sink : DebugSink Img}
    (h : sink.NeverRaises) (step : ℕ) (name : String) (image : Img) (ts : ℤ) :
    saveDebugImage sink step name image ts = Except.ok () := by
  obtain ⟨b, hb⟩ := h step name image ts
  simp [saveDebugImage, hb, Except.map]

/-- Appending-accumulator loops are filter-then-map. -/
theorem foldl_append_eq_filter_map {α β : Type} (p : α → Bool) (f : α → β)
    (l : List α) (init : List β) :
    l.foldl (fun acc a => if p a then acc ++ [f a] else acc) init =
      init ++ (l.filter p).map f := by
  induction l generalizing init with
  | nil => simp
  | cons a l ih =>
      by_cases h : p a
      · simp [h, ih]
      · simp [h, ih]

/-- The `Circle(x=x, y=y, r=r, area=np.pi * r * r)` construction of
`_process_detected_circles`. `piF` is the float64 constant `np.pi`; the
float product is modelled by the exact rational product. -/
def circleOf (piF : ℚ) (hc : HoughCircle) : Circle :=
  ⟨hc.x, hc.y, hc.r, piF * hc.r * hc.r⟩

/-- Model of `PDIService._validate_circle(circle, contours, shape, params)`: scan the
contours and accept at the first whose rasterized overlap with the filled
circle mask exceeds `0.7 * circle.area` while
`min_area <= circle.area <= max_area`. -/
def validateCircle {Img : Type} (ops : CVOps Img) (circle : Circle)
    (contours : List Contour) (params : PDIShapeDetectionParameters) : Bool :=
  contours.any (fun contour =>
    decide ((ops.overlapArea circle contour : ℚ) > 7/10 * circle.area ∧
      (params.min_area : ℚ) ≤ circle.area ∧
      circle.area ≤ (params.max_area : ℚ)))

/-- The box `(x - r, y - r, 2r, 2r)` that `_add_circle_to_result` appends for
a validated circle (the drawing on the debug frame is elided). -/
def circleBox (circle : Circle) : Box :=
  ⟨(circle.x : ℤ) - (circle.r : ℤ), (circle.y : ℤ) - (circle.r : ℤ),
    2 * (circle.r : ℤ), 2 * (circle.r : ℤ)⟩

/-- Model of `PDIService._process_detected_circles(circles, contours, shape, params,
result)`: for each rounded Hough circle build the `Circle` with its float
area, validate it, and append its box when validation succeeds. -/
def processDetectedCircles {Img : Type} (ops : CVOps Img) (piF : ℚ)
    (circles : List HoughCircle) (contours : List Contour)
    (params : PDIShapeDetectionParameters) : List Box :=
  circles.foldl
    (fun acc hc =>
      if validateCircle ops (circleOf piF hc) contours params then
        acc ++ [circleBox (circleOf piF hc)]
      else acc)
    []

/-- Model of `PDIService._save_contours_debug(binary, contours, step, timestamp)`:
one debug emission of the annotated binary image (annotation elided). -/
def saveContoursDebug {Img : Type} (sink : DebugSink Img) (binary : Img)
    (step : ℕ) (ts : ℤ) : Except PyErr Unit :=
  saveDebugImage sink step (toString step ++ "_binary_contours") binary ts

/-- Model of `PDIService._detect_circles(original_frame, blurred, binary, params,
timestamp)`: contours of the binary image, the Hough stage, early empty
return on `None`, validation, and the final debug emission. -/
def detectCircles {Img : Type} (ops : CVOps Img) (sink : DebugSink Img)
    (piF : ℚ) (original_frame blurred binary : Img)
    (params : PDIShapeDetectionParameters) (ts : ℤ) :
    Except PyErr (List Box) := do
  let contours := ops.findContours binary
  saveContoursDebug sink binary 5 ts
  match ops.findCircles blurred params.min_area params.max_area with
  | none => pure []
  | some circles => do
      let boxes := processDetectedCircles ops piF circles contours params
      saveDebugImage sink 6 "6_final_detection" original_frame ts
      pure boxes

/-- The per-contour test of `_detect_triangles`: area in range and the 3%
polygon approximation has exactly 3 vertices. -/
def triangleAccept (params : PDIShapeDetectionParameters) (c : Contour) : Bool :=
  areaInRange params.min_area params.max_area c &&
    (c.approxAt (3/100 * c.arcLen)).length == 3

/-- The accumulation loop of `_detect_triangles`: every accepted contour
contributes the bounding box of the original contour
(`_add_triangle_to_result`, drawing elided). -/
def detectTrianglesCore (contours : List Contour)
    (params : PDIShapeDetectionParameters) : List Box :=
  contours.foldl
    (fun acc c =>
      if triangleAccept params c then acc ++ [boundingRect c.points]
      else acc)
    []

/-- Model of `PDIService._detect_triangles(original_frame, binary, params, timestamp)`. -/
def detectTriangles {Img : Type} (ops : CVOps Img) (sink : DebugSink Img)
    (original_frame binary : Img) (params : PDIShapeDetectionParameters)
    (ts : ℤ) : Except PyErr (List Box) := do
  let contours := ops.findContours binary
  saveContoursDebug sink binary 5 ts
  let boxes := detectTrianglesCore contours params
  saveDebugImage sink 6 "6_final_detection" original_frame ts
  pure boxes

/-- Model of `PDIService._get_aspect_ratio_limits(params)`: the caller's bounds when
the sub-kind is custom and a custom range was supplied, otherwise the fixed
table — which has no entry for `custom`, so a custom sub-kind without a
custom range raises `KeyError`. -/
def getAspectRatioLimits (params : PDIShapeDetectionParameters) :
    Except PyErr (ℚ × ℚ) :=
  match params.rectangle_type, params.customR with
  | RectangleType.custom, some a => Except.ok (a.rmin, a.rmax)
  | RectangleType.custom, none => Except.error PyErr.keyError
  | RectangleType.any, _ => Except.ok (2/10, 5)
  | RectangleType.square, _ => Except.ok (8/10, 12/10)
  | RectangleType.horizontal, _ => Except.ok (15/10, 5)
  | RectangleType.vertical, _ => Except.ok (2/10, 67/100)

/-- Model of `PDIService._process_rectangle_contour(contour, params, debug_frame,
bounding_boxes)`: area filter, 4% polygon approximation, 4-vertex test,
bounding box, `h > 0` guard, aspect-ratio test against the looked-up limits
(drawing elided; the mutated `bounding_boxes` list is threaded as the
accumulator). -/
def processRectangleContour (c : Contour)
    (params : PDIShapeDetectionParameters) (bounding_boxes : List Box) :
    Except PyErr (List Box) :=
  if areaInRange params.min_area params.max_area c then
    let approx := c.approxAt (4/100 * c.arcLen)
    if approx.length = 4 then
      let b := boundingRect c.points
      if b.h > 0 then do
        let aspect : ℚ := (b.w : ℚ) / (b.h : ℚ)
        let limits ← getAspectRatioLimits params
        if limits.1 ≤ aspect ∧ aspect ≤ limits.2 then
          pure (bounding_boxes ++ [b])
        else pure bounding_boxes
      else pure bounding_boxes
    else pure bounding_boxes
  else pure bounding_boxes

/-- Model of `PDIService._detect_rectangles(original_frame, binary, params,
timestamp)`. -/
def detectRectangles {Img : Type} (ops : CVOps Img) (sink : DebugSink Img)
    (original_frame binary : Img) (params : PDIShapeDetectionParameters)
    (ts : ℤ) : Except PyErr (List Box) := do
  let contours := ops.findContours binary
  saveDebugImage sink 4 "all_contours" original_frame ts
  let boxes ← contours.foldlM
    (fun acc c => processRectangleContour c params acc) []
  saveDebugImage sink 5 "rectangles_detected" original_frame ts
  pure boxes

/-- Model of `PDIService.process_frame_shape_detection(frame, roi, params,
timestamp)`: crop, grayscale, 7×7 blur (sigma 2), fixed threshold at 127,
then the branch on the requested shape (`rectangle` is the fall-through
branch in the source). -/
def processFrameShapeDetection {Img : Type} (ops : CVOps Img)
    (sink : DebugSink Img) (piF : ℚ) (frame : Img) (roi : ROI)
    (params : PDIShapeDetectionParameters) (ts : ℤ) :
    Except PyErr (List Box) := do
  let roi_frame := ops.crop frame roi
  saveDebugImage sink 1 "1_roi" roi_frame ts
  let gray := ops.bgr2gray roi_frame
  saveDebugImage sink 2 "2_gray" gray ts
  let blurred := ops.gaussianBlur gray 2
  saveDebugImage sink 3 "3_blurred" blurred ts
  let binary := ops.threshold127 blurred
  saveDebugImage sink 4 "4_binary" binary ts
  match params.shape with
  | PDIShapeDetectionShape.circle =>
      detectCircles ops sink piF roi_frame blurred binary params ts
  | PDIShapeDetectionShape.triangle =>
      detectTriangles ops sink roi_frame binary params ts
  | PDIShapeDetectionShape.rectangle =>
      detectRectangles ops sink roi_frame binary params ts

theorem okBind {α β : Type} (a : α) (f : α → Except PyErr β) :
    (Except.ok a >>= f) = f a := rfl

theorem pureOk {α : Type} (a : α) : (pure a : Except PyErr α) = Except.ok a := rfl

/-- C2: in the circle branch a detected circle is accepted exactly when some
contour's rasterized overlap with it exceeds 0.7 times its area and its area
lies in `[min_area, max_area]`; every accepted circle contributes exactly the
box `(x - r, y - r, 2r, 2r)` and a rejected circle contributes nothing. -/
theorem circle_accept_iff_overlap_and_area {Img : Type} (ops : CVOps Img)
    (piF : ℚ) (circles : List HoughCircle) (contours : List Contour)
    (params : PDIShapeDetectionParameters) :
    processDetectedCircles ops piF circles contours params =
      ((circles.filter
          (fun hc => validateCircle ops (circleOf piF hc) contours params)).map
        (fun hc => circleBox (circleOf piF hc))) ∧
    ∀ circle : Circle,
      validateCircle ops circle contours params = true ↔
        ((∃ contour ∈ contours,
            ((ops.overlapArea circle contour : ℚ) > 7/10 * circle.area)) ∧
          (params.min_area : ℚ) ≤ circle.area ∧
          circle.area ≤ (params.max_area : ℚ)) := by
  constructor
  · exact foldl_append_eq_filter_map _ _ circles []
  · intro circle
    simp only [validateCircle, List.any_eq_true, decide_eq_true_eq]
    constructor
    · rintro ⟨ct, hct, hov, hmin, hmax⟩
      exact ⟨⟨ct, hct, hov⟩, hmin, hmax⟩
    · rintro ⟨⟨ct, hct, hov⟩, hmin, hmax⟩
      exact ⟨ct, hct, hov, hmin, hmax⟩

/-- C6: the triangle branch keeps exactly the contours whose area is in
range and whose 3%-of-perimeter approximation has exactly 3 vertices, and
each keeps the bounding box of the original contour (not of the simplified
polygon). -/
theorem triangle_boxes_characterization (contours : List Contour)
    (params : PDIShapeDetectionParameters) :
    detectTrianglesCore contours params =
      ((contours.filter (triangleAccept params)).map
        (fun c => boundingRect c.points)) ∧
    ∀ c : Contour,
      triangleAccept params c = true ↔
        ((params.min_area : ℚ) ≤ contourArea c ∧
          contourArea c ≤ (params.max_area : ℚ)) ∧
        (c.approxAt (3/100 * c.arcLen)).length = 3 := by
  constructor
  · exact foldl_append_eq_filter_map _ _ contours []
  · intro c
    simp [triangleAccept, areaInRange]

/-- Under a non-raising sink, colour segmentation computes the filtered
bounding boxes of the cleaned mask's contours. -/
theorem processColorSeg_eq {Img : Type} (ops : CVOps Img)
    (sink : DebugSink Img) (frame : Img) (roi : ROI)
    (params : PDIColorSegmentationParameters) (ts : ℤ)
    (h : sink.NeverRaises) :
    processFrameColorSegmentation ops sink frame roi params ts =
      Except.ok
        (((ops.findContours (cleanedMask ops frame roi params)).filter
            (areaInRange params.min_area params.max_area)).map
          (fun c => boundingRect c.points)) := by
  simp only [processFrameColorSegmentation, findBoundingBoxes,
    saveDebugImage_ok h, okBind, pureOk, cleanedMask, findBoundingBoxesCore,
    foldl_append_eq_filter_map, List.nil_append]

/-- C5: under a non-raising debug sink, colour segmentation returns exactly
one bounding box per contour of the cleaned mask whose enclosed area lies in
`[min_area, max_area]` — the boxes are those of the filtered contours, in
discovery order, and nothing else. -/
theorem color_seg_box_iff_area_in_range {Img : Type} (ops : CVOps Img)
    (sink : DebugSink Img) (frame : Img) (roi : ROI)
    (params : PDIColorSegmentationParameters) (ts : ℤ)
    (h : sink.NeverRaises) :
    processFrameColorSegmentation ops sink frame roi params ts =
      Except.ok
        (((ops.findContours (cleanedMask ops frame roi params)).filter
            (areaInRange params.min_area params.max_area)).map
          (fun c => boundingRect c.points)) :=
  processColorSeg_eq ops sink frame roi params ts h

/-- Under a non-raising sink, the triangle branch computes its accumulation
loop's result. -/
theorem detectTriangles_eq {Img : Type} (ops : CVOps Img)
    (sink : DebugSink Img) (original_frame binary : Img)
    (params : PDIShapeDetectionParameters) (ts : ℤ) (h : sink.NeverRaises) :
    detectTriangles ops sink original_frame binary params ts =
      Except.ok (detectTrianglesCore (ops.findContours binary) params) := by
  simp only [detectTriangles, saveContoursDebug, saveDebugImage_ok h, okBind,
    pureOk]

/-- Under a non-raising sink, the circle branch returns `[]` when the Hough
stage returns `None`. -/
theorem detectCircles_none {Img : Type} (ops : CVOps Img)
    (sink : DebugSink Img) (piF : ℚ) (original_frame blurred binary : Img)
    (params : PDIShapeDetectionParameters) (ts : ℤ) (h : sink.NeverRaises)
    (hc : ops.findCircles blurred params.min_area params.max_area = none) :
    detectCircles ops sink piF original_frame blurred binary params ts =
      Except.ok [] := by
  simp only [detectCircles, saveContoursDebug, saveDebugImage_ok h, okBind,
    hc, pureOk]

/-- Under a non-raising sink, the circle branch processes the rounded Hough
detections when the Hough stage returns some. -/
theorem detectCircles_some {Img : Type} (ops : CVOps Img)
    (sink : DebugSink Img) (piF : ℚ) (original_frame blurred binary : Img)
    (params : PDIShapeDetectionParameters) (ts : ℤ)
    (circles : List HoughCircle) (h : sink.NeverRaises)
    (hc : ops.findCircles blurred params.min_area params.max_area =
      some circles) :
    detectCircles ops sink piF original_frame blurred binary params ts =
      Except.ok
        (processDetectedCircles ops piF circles (ops.findContours binary)
          params) := by
  simp only [detectCircles, saveContoursDebug, saveDebugImage_ok h, okBind,
    hc, pureOk]

theorem bindPureOk {α : Type} (x : Except PyErr α) :
    (x >>= fun a => (Except.ok a : Except PyErr α)) = x := by
  cases x <;> rfl

/-- Under a non-raising sink, the rectangle branch is its contour fold. -/
theorem detectRectangles_eq {Img : Type} (ops : CVOps Img)
    (sink : DebugSink Img) (original_frame binary : Img)
    (params : PDIShapeDetectionParameters) (ts : ℤ) (h : sink.NeverRaises) :
    detectRectangles ops sink original_frame binary params ts =
      (ops.findContours binary).foldlM
        (fun acc c => processRectangleContour c params acc) [] := by
  simp only [detectRectangles, saveDebugImage_ok h, okBind]
  exact bindPureOk _

/-- A trivial instantiation of the raster primitives over a one-point image
type, with prescribed contour, Hough and overlap outcomes; used to evaluate
the pipelines on concrete inputs. -/
def unitOps (contours : List Contour) (circles : Option (List HoughCircle))
    (overlap : ℕ) : CVOps Unit where
  crop := fun _ _ => ()
  gaussianBlur := fun _ _ => ()
  bgr2hsv := fun _ => ()
  bgr2gray := fun _ => ()
  threshold127 := fun _ => ()
  inRange := fun _ _ _ => ()
  bitwiseOr := fun _ _ => ()
  maskedAnd := fun _ _ => ()
  erode := fun _ _ => ()
  dilate := fun _ _ => ()
  findContours := fun _ => contours
  findCircles := fun _ _ _ => circles
  overlapArea := fun _ _ => overlap

/-- A sink whose every emission completes with `cv2.imwrite` returning
`True`. -/
def okSink : DebugSink Unit := ⟨fun _ _ _ _ => Except.ok true⟩

/-- A sink whose every emission completes but whose every `cv2.imwrite`
returns `False` (the write failed). -/
def falseSink : DebugSink Unit := ⟨fun _ _ _ _ => Except.ok false⟩

/-- A sink whose every emission raises. -/
def badSink : DebugSink Unit := ⟨fun _ _ _ _ => Except.error PyErr.sinkError⟩

theorem okSink_neverRaises : okSink.NeverRaises :=
  fun _ _ _ _ => ⟨true, rfl⟩

theorem falseSink_neverRaises : falseSink.NeverRaises :=
  fun _ _ _ _ => ⟨false, rfl⟩

/-- A 10×10 axis-aligned square contour: area 100, bounding box
`(0, 0, 11, 11)`, and a polygon approximation with 4 vertices at every
tolerance. -/
def squareContour : Contour :=
  ⟨[⟨0, 0⟩, ⟨10, 0⟩, ⟨10, 10⟩, ⟨0, 10⟩], 40,
    fun _ => [⟨0, 0⟩, ⟨10, 0⟩, ⟨10, 10⟩, ⟨0, 10⟩]⟩

/-- A small triangle contour: vertices `(0,0), (4,0), (0,4)`, area 8, and a
polygon approximation with 3 vertices at every tolerance. -/
def triContour : Contour :=
  ⟨[⟨0, 0⟩, ⟨4, 0⟩, ⟨0, 4⟩], 14, fun _ => [⟨0, 0⟩, ⟨4, 0⟩, ⟨0, 4⟩]⟩

/-- C9: the caller's upper colour bound has no influence: two
colour-segmentation parameter sets agreeing on lower colour and area bounds
(but with any upper colours) produce identical results on every frame, ROI
and timestamp. -/
theorem upper_color_no_influence {Img : Type} (ops : CVOps Img)
    (sink : DebugSink Img) (frame : Img) (roi : ROI) (ts : ℤ)
    (p1 p2 : PDIColorSegmentationParameters)
    (hl : p1.lower_color = p2.lower_color)
    (hmin : p1.min_area = p2.min_area) (hmax : p1.max_area = p2.max_area) :
    processFrameColorSegmentation ops sink frame roi p1 ts =
      processFrameColorSegmentation ops sink frame roi p2 ts := by
  simp only [processFrameColorSegmentation, findBoundingBoxes,
    findBoundingBoxesCore, createColorMask, hl, hmin, hmax]

/-- Witness for C9 at a concrete input: the two parameter sets differ in
their upper colour and nothing else, and the results coincide. -/
theorem upper_color_no_influence_witness :
    ((⟨⟨9, 3, 2⟩, ⟨255, 60, 60⟩, 0, 100⟩ :
        PDIColorSegmentationParameters).lower_color =
      (⟨⟨9, 3, 2⟩, ⟨10, 200, 10⟩, 0, 100⟩ :
        PDIColorSegmentationParameters).lower_color) ∧
    ((⟨⟨9, 3, 2⟩, ⟨255, 60, 60⟩, 0, 100⟩ :
        PDIColorSegmentationParameters).upper_color ≠
      (⟨⟨9, 3, 2⟩, ⟨10, 200, 10⟩, 0, 100⟩ :
        PDIColorSegmentationParameters).upper_color) ∧
    processFrameColorSegmentation (unitOps [squareContour] none 0) okSink ()
        ⟨⟨0, 0⟩, ⟨10, 10⟩⟩ ⟨⟨9, 3, 2⟩, ⟨255, 60, 60⟩, 0, 100⟩ 7 =
      processFrameColorSegmentation (unitOps [squareContour] none 0) okSink ()
        ⟨⟨0, 0⟩, ⟨10, 10⟩⟩ ⟨⟨9, 3, 2⟩, ⟨10, 200, 10⟩, 0, 100⟩ 7 :=
  ⟨rfl, by decide,
    upper_color_no_influence (unitOps [squareContour] none 0) okSink ()
      ⟨⟨0, 0⟩, ⟨10, 10⟩⟩ 7
      ⟨⟨9, 3, 2⟩, ⟨255, 60, 60⟩, 0, 100⟩
      ⟨⟨9, 3, 2⟩, ⟨10, 200, 10⟩, 0, 100⟩ rfl rfl rfl⟩

/-- C10 (amended): as long as no debug emission raises, the value that each
emission returns (`cv2.imwrite` succeeding or failing) has no influence: two
non-raising sinks give identical results in both pipelines. -/
theorem debug_outcome_no_influence {Img : Type} (ops : CVOps Img)
    (s1 s2 : DebugSink Img) (piF : ℚ) (frame : Img) (roi : ROI)
    (pc : PDIColorSegmentationParameters)
    (ps : PDIShapeDetectionParameters) (ts : ℤ)
    (h1 : s1.NeverRaises) (h2 : s2.NeverRaises) :
    processFrameColorSegmentation ops s1 frame roi pc ts =
      processFrameColorSegmentation ops s2 frame roi pc ts ∧
    processFrameShapeDetection ops s1 piF frame roi ps ts =
      processFrameShapeDetection ops s2 piF frame roi ps ts := by
  constructor
  · simp only [processFrameColorSegmentation, findBoundingBoxes,
      saveDebugImage_ok h1, saveDebugImage_ok h2, okBind]
  · cases hs : ps.shape
    · cases hc : ops.findCircles (ops.gaussianBlur (ops.bgr2gray
          (ops.crop frame roi)) 2) ps.min_area ps.max_area
      · simp only [processFrameShapeDetection, hs,
          detectCircles_none ops s1 piF _ _ _ ps ts h1 hc,
          detectCircles_none ops s2 piF _ _ _ ps ts h2 hc,
          saveDebugImage_ok h1, saveDebugImage_ok h2, okBind]
      · simp only [processFrameShapeDetection, hs,
          detectCircles_some ops s1 piF _ _ _ ps ts _ h1 hc,
          detectCircles_some ops s2 piF _ _ _ ps ts _ h2 hc,
          saveDebugImage_ok h1, saveDebugImage_ok h2, okBind]
    · simp only [processFrameShapeDetection, hs,
        detectRectangles_eq ops s1 _ _ ps ts h1,
        detectRectangles_eq ops s2 _ _ ps ts h2,
        saveDebugImage_ok h1, saveDebugImage_ok h2, okBind]
    · simp only [processFrameShapeDetection, hs,
        detectTriangles_eq ops s1 _ _ ps ts h1,
        detectTriangles_eq ops s2 _ _ ps ts h2,
        saveDebugImage_ok h1, saveDebugImage_ok h2, okBind]

theorem errorBind {α β : Type} (e : PyErr) (f : α → Except PyErr β) :
    (Except.error e >>= f) = Except.error e := rfl

theorem squareContour_area : contourArea squareContour = 100 := by
  norm_num [contourArea, squareContour, shoelace, shoelaceAux]

theorem squareContour_rect : boundingRect squareContour.points =
    ⟨0, 0, 11, 11⟩ := by
  decide

theorem triContour_area : contourArea triContour = 8 := by
  norm_num [contourArea, triContour, shoelace, shoelaceAux]

theorem triContour_rect : boundingRect triContour.points = ⟨0, 0, 5, 5⟩ := by
  decide

/-- C10 counterexample: with a sink whose emission raises, colour
segmentation propagates the error to the caller, while the same call with a
completing sink returns a box — the result is not independent of emission
failure. -/
theorem sink_failure_alters_result_counterexample :
    processFrameColorSegmentation (unitOps [squareContour] none 0) badSink ()
        ⟨⟨0, 0⟩, ⟨10, 10⟩⟩ ⟨⟨200, 10, 10⟩, ⟨255, 100, 100⟩, 0, 1000⟩ 0 =
      Except.error PyErr.sinkError ∧
    processFrameColorSegmentation (unitOps [squareContour] none 0) okSink ()
        ⟨⟨0, 0⟩, ⟨10, 10⟩⟩ ⟨⟨200, 10, 10⟩, ⟨255, 100, 100⟩, 0, 1000⟩ 0 =
      Except.ok [⟨0, 0, 11, 11⟩] := by
  refine ⟨rfl, ?_⟩
  rw [processColorSeg_eq _ okSink _ _ _ _ okSink_neverRaises]
  have hin : areaInRange 0 1000 squareContour = true := by
    simp [areaInRange, squareContour_area]
    norm_num
  simp [unitOps, hin, squareContour_rect]

/-- Witness for the amended C10: an all-writes-succeed sink and an
all-writes-fail sink (neither raising) give identical results. -/
theorem debug_outcome_no_influence_witness :
    okSink.NeverRaises ∧ falseSink.NeverRaises ∧
    (processFrameColorSegmentation (unitOps [squareContour] none 1) okSink ()
          ⟨⟨0, 0⟩, ⟨10, 10⟩⟩ ⟨⟨200, 10, 10⟩, ⟨255, 100, 100⟩, 0, 1000⟩ 0 =
        processFrameColorSegmentation (unitOps [squareContour] none 1)
          falseSink () ⟨⟨0, 0⟩, ⟨10, 10⟩⟩
          ⟨⟨200, 10, 10⟩, ⟨255, 100, 100⟩, 0, 1000⟩ 0 ∧
      processFrameShapeDetection (unitOps [squareContour] none 1) okSink
          (314/100) () ⟨⟨0, 0⟩, ⟨10, 10⟩⟩
          ⟨PDIShapeDetectionShape.rectangle, RectangleType.any, 0, 1000,
            none⟩ 0 =
        processFrameShapeDetection (unitOps [squareContour] none 1) falseSink
          (314/100) () ⟨⟨0, 0⟩, ⟨10, 10⟩⟩
          ⟨PDIShapeDetectionShape.rectangle, RectangleType.any, 0, 1000,
            none⟩ 0) :=
  ⟨okSink_neverRaises, falseSink_neverRaises,
    debug_outcome_no_influence (unitOps [squareContour] none 1) okSink
      falseSink (314/100) () ⟨⟨0, 0⟩, ⟨10, 10⟩⟩
      ⟨⟨200, 10, 10⟩, ⟨255, 100, 100⟩, 0, 1000⟩
      ⟨PDIShapeDetectionShape.rectangle, RectangleType.any, 0, 1000, none⟩ 0
      okSink_neverRaises falseSink_neverRaises⟩

/-- With no contours, no detected circle validates, so no box is emitted. -/
theorem processDetectedCircles_nil_contours {Img : Type} (ops : CVOps Img)
    (piF : ℚ) (circles : List HoughCircle)
    (params : PDIShapeDetectionParameters) :
    processDetectedCircles ops piF circles [] params = [] := by
  unfold processDetectedCircles
  rw [foldl_append_eq_filter_map]
  simp [validateCircle]

/-- C7: under a non-raising sink and a well-formed call, zero candidate
contours make every pipeline (colour segmentation and all three shape
branches) return the empty list as a success, and a `None` from the Hough
stage makes the circle branch return the empty list as a success. -/
theorem no_candidates_empty_success {Img : Type} (ops : CVOps Img)
    (sink : DebugSink Img) (piF : ℚ) (frame : Img) (roi : ROI)
    (pc : PDIColorSegmentationParameters)
    (ps : PDIShapeDetectionParameters) (ts : ℤ) (h : sink.NeverRaises) :
    ((ops.findContours = fun _ => ([] : List Contour)) →
      processFrameColorSegmentation ops sink frame roi pc ts =
          Except.ok [] ∧
        processFrameShapeDetection ops sink piF frame roi ps ts =
          Except.ok []) ∧
    ((∀ img a b, ops.findCircles img a b = none) →
      ps.shape = PDIShapeDetectionShape.circle →
      processFrameShapeDetection ops sink piF frame roi ps ts =
        Except.ok []) := by
  constructor
  · intro hno
    constructor
    · rw [processColorSeg_eq ops sink frame roi pc ts h, hno]
      simp
    · cases hs : ps.shape
      · cases hc : ops.findCircles
            (ops.gaussianBlur (ops.bgr2gray (ops.crop frame roi)) 2)
            ps.min_area ps.max_area
        · simp only [processFrameShapeDetection, hs, saveDebugImage_ok h,
            okBind, detectCircles_none ops sink piF _ _ _ ps ts h hc]
        · simp only [processFrameShapeDetection, hs, saveDebugImage_ok h,
            okBind, detectCircles_some ops sink piF _ _ _ ps ts _ h hc, hno,
            processDetectedCircles_nil_contours]
      · simp only [processFrameShapeDetection, hs, saveDebugImage_ok h,
          okBind, detectRectangles_eq ops sink _ _ ps ts h, hno,
          List.foldlM_nil, pureOk]
      · simp only [processFrameShapeDetection, hs, saveDebugImage_ok h,
          okBind, detectTriangles_eq ops sink _ _ ps ts h, hno,
          detectTrianglesCore, List.foldl_nil]
  · intro hnone hs
    simp only [processFrameShapeDetection, hs, saveDebugImage_ok h, okBind,
      detectCircles_none ops sink piF _ _ _ ps ts h (hnone _ _ _)]

/-- Witness for C7: with no contours and no Hough detections, colour
segmentation and the circle branch both return `ok []`. -/
theorem no_candidates_empty_success_witness :
    processFrameColorSegmentation (unitOps [] none 0) okSink ()
        ⟨⟨0, 0⟩, ⟨10, 10⟩⟩ ⟨⟨0, 0, 0⟩, ⟨255, 255, 255⟩, 0, 1000⟩ 0 =
      Except.ok [] ∧
    processFrameShapeDetection (unitOps [] none 0) okSink (314/100) ()
        ⟨⟨0, 0⟩, ⟨10, 10⟩⟩
        ⟨PDIShapeDetectionShape.circle, RectangleType.any, 0, 1000, none⟩ 0 =
      Except.ok [] := by
  have h := no_candidates_empty_success (unitOps [] none 0) okSink (314/100)
    () ⟨⟨0, 0⟩, ⟨10, 10⟩⟩ ⟨⟨0, 0, 0⟩, ⟨255, 255, 255⟩, 0, 1000⟩
    ⟨PDIShapeDetectionShape.circle, RectangleType.any, 0, 1000, none⟩ 0
    okSink_neverRaises
  exact ⟨(h.1 rfl).1, h.2 (fun _ _ _ => rfl) rfl⟩

/-- C4 counterexample: a call with `min_area = 10 > 5 = max_area` is not
rejected: colour segmentation runs every stage and returns an empty success,
not an input error. -/
theorem no_input_validation_counterexample :
    ¬ ((10 : ℤ) ≤ 5) ∧
    processFrameColorSegmentation (unitOps [squareContour] none 0) okSink ()
        ⟨⟨0, 0⟩, ⟨10, 10⟩⟩ ⟨⟨0, 0, 0⟩, ⟨255, 255, 255⟩, 10, 5⟩ 3 =
      Except.ok [] := by
  refine ⟨by decide, ?_⟩
  rw [processColorSeg_eq _ okSink _ _ _ _ okSink_neverRaises]
  simp [unitOps, cleanedMask, areaInRange, squareContour_area]
  norm_num

/-- C4 (amended): the service performs no boundary validation. With
`min_area > max_area` the colour-segmentation call succeeds with the empty
list (the area filter is unsatisfiable); a custom rectangle sub-kind without
a custom range does not fail at the boundary — `_process_rectangle_contour`
raises a `KeyError` from the limits lookup exactly when the contour passes
the area, 4-vertex and positive-height gates, and otherwise returns its
accumulator unchanged. -/
theorem no_boundary_validation_amended {Img : Type} (ops : CVOps Img)
    (sink : DebugSink Img) (frame : Img) (roi : ROI)
    (params : PDIColorSegmentationParameters) (ts : ℤ)
    (h : sink.NeverRaises) (hlt : params.max_area < params.min_area) :
    processFrameColorSegmentation ops sink frame roi params ts =
      Except.ok [] ∧
    ∀ (q : PDIShapeDetectionParameters) (c : Contour) (bs : List Box),
      q.rectangle_type = RectangleType.custom → q.customR = none →
      (processRectangleContour c q bs = Except.error PyErr.keyError ↔
        (areaInRange q.min_area q.max_area c = true ∧
          (c.approxAt (4/100 * c.arcLen)).length = 4 ∧
          0 < (boundingRect c.points).h)) := by
  constructor
  · rw [processColorSeg_eq ops sink frame roi params ts h]
    have hfalse : ∀ c : Contour,
        areaInRange params.min_area params.max_area c = false := by
      intro c
      simp only [areaInRange, decide_eq_false_iff_not]
      rintro ⟨h1, h2⟩
      have hq : (params.max_area : ℚ) < (params.min_area : ℚ) := by
        exact_mod_cast hlt
      linarith
    simp [hfalse]
  · intro q c bs hq1 hq2
    have hL : getAspectRatioLimits q = Except.error PyErr.keyError := by
      simp [getAspectRatioLimits, hq1, hq2]
    by_cases h1 : areaInRange q.min_area q.max_area c = true
    · by_cases h2 : (c.approxAt (4/100 * c.arcLen)).length = 4
      · by_cases h3 : 0 < (boundingRect c.points).h
        · simp [processRectangleContour, h1, h2, h3, hL, errorBind]
        · simp [processRectangleContour, h1, h2, h3, pureOk]
      · simp [processRectangleContour, h1, h2, pureOk]
    · simp [processRectangleContour, h1, pureOk]

/-- Witness for the amended C4: a concrete call with `min_area = 10 >
5 = max_area` under a completing sink. -/
theorem no_boundary_validation_amended_witness :
    okSink.NeverRaises ∧ ((5 : ℤ) < 10) ∧
    (processFrameColorSegmentation (unitOps [squareContour] none 0) okSink ()
        ⟨⟨0, 0⟩, ⟨10, 10⟩⟩ ⟨⟨0, 0, 0⟩, ⟨0, 0, 0⟩, 10, 5⟩ 3 =
      Except.ok [] ∧
    ∀ (q : PDIShapeDetectionParameters) (c : Contour) (bs : List Box),
      q.rectangle_type = RectangleType.custom → q.customR = none →
      (processRectangleContour c q bs = Except.error PyErr.keyError ↔
        (areaInRange q.min_area q.max_area c = true ∧
          (c.approxAt (4/100 * c.arcLen)).length = 4 ∧
          0 < (boundingRect c.points).h))) :=
  ⟨okSink_neverRaises, by decide,
    no_boundary_validation_amended (unitOps [squareContour] none 0) okSink ()
      ⟨⟨0, 0⟩, ⟨10, 10⟩⟩ ⟨⟨0, 0, 0⟩, ⟨0, 0, 0⟩, 10, 5⟩ 3
      okSink_neverRaises (by decide)⟩

/-- Witness for C5 at a concrete input: one in-range and one out-of-range
contour under a completing sink. -/
theorem color_seg_box_iff_area_in_range_witness :
    okSink.NeverRaises ∧
    processFrameColorSegmentation (unitOps [squareContour, triContour] none 0)
        okSink () ⟨⟨0, 0⟩, ⟨10, 10⟩⟩ ⟨⟨0, 0, 0⟩, ⟨255, 255, 255⟩, 50, 1000⟩
        2 =
      Except.ok
        ((((unitOps [squareContour, triContour] none 0).findContours
              (cleanedMask (unitOps [squareContour, triContour] none 0) ()
                ⟨⟨0, 0⟩, ⟨10, 10⟩⟩
                ⟨⟨0, 0, 0⟩, ⟨255, 255, 255⟩, 50, 1000⟩)).filter
            (areaInRange 50 1000)).map (fun c => boundingRect c.points)) :=
  ⟨okSink_neverRaises,
    color_seg_box_iff_area_in_range (unitOps [squareContour, triContour] none 0)
      okSink () ⟨⟨0, 0⟩, ⟨10, 10⟩⟩ ⟨⟨0, 0, 0⟩, ⟨255, 255, 255⟩, 50, 1000⟩ 2
      okSink_neverRaises⟩

theorem foldl_min_le_init (f : Point → ℤ) (l : List Point) (a : ℤ) :
    l.foldl (fun x q => min x (f q)) a ≤ a := by
  induction l generalizing a with
  | nil => simp
  | cons p l ih =>
      simp only [List.foldl_cons]
      exact le_trans (ih (min a (f p))) (min_le_left a (f p))

theorem init_le_foldl_max (f : Point → ℤ) (l : List Point) (a : ℤ) :
    a ≤ l.foldl (fun x q => max x (f q)) a := by
  induction l generalizing a with
  | nil => simp
  | cons p l ih =>
      simp only [List.foldl_cons]
      exact le_trans (le_max_left a (f p)) (ih (max a (f p)))

/-- The bounding rectangle of a nonempty point list has positive width. -/
theorem boundingRect_w_pos (p : Point) (rest : List Point) :
    0 < (boundingRect (p :: rest)).w := by
  have h1 : rest.foldl (fun a q => min a q.x) p.x ≤ p.x :=
    foldl_min_le_init (fun q => q.x) rest p.x
  have h2 : p.x ≤ rest.foldl (fun a q => max a q.x) p.x :=
    init_le_foldl_max (fun q => q.x) rest p.x
  simp only [boundingRect]
  linarith

/-- The bounding rectangle of a nonempty point list has positive height. -/
theorem boundingRect_h_pos (p : Point) (rest : List Point) :
    0 < (boundingRect (p :: rest)).h := by
  have h1 : rest.foldl (fun a q => min a q.y) p.y ≤ p.y :=
    foldl_min_le_init (fun q => q.y) rest p.y
  have h2 : p.y ≤ rest.foldl (fun a q => max a q.y) p.y :=
    init_le_foldl_max (fun q => q.y) rest p.y
  simp only [boundingRect]
  linarith

theorem boundingRect_h_nonneg (ps : List Point) :
    0 ≤ (boundingRect ps).h := by
  cases ps with
  | nil => simp [boundingRect]
  | cons p rest => exact le_of_lt (boundingRect_h_pos p rest)

/-- The aspect-ratio interval the spec's table prescribes for each rectangle
sub-kind; for the custom sub-kind, the caller-supplied range. -/
def ratioLimitsSpec (params : PDIShapeDetectionParameters) : ℚ × ℚ :=
  match params.rectangle_type with
  | RectangleType.any => (2/10, 5)
  | RectangleType.square => (8/10, 12/10)
  | RectangleType.horizontal => (15/10, 5)
  | RectangleType.vertical => (2/10, 67/100)
  | RectangleType.custom =>
      match params.customR with
      | some a => (a.rmin, a.rmax)
      | none => (0, 0)

/-- The spec's acceptance test for a rectangle contour: area in range, the
4%-of-perimeter approximation has exactly 4 vertices, the bounding box
height is nonzero, and the width/height quotient lies in the sub-kind's
interval. -/
def rectangleAcceptSpec (params : PDIShapeDetectionParameters)
    (c : Contour) : Bool :=
  areaInRange params.min_area params.max_area c &&
  ((c.approxAt (4/100 * c.arcLen)).length == 4) &&
  (decide ((boundingRect c.points).h ≠ 0)) &&
  (decide
    ((ratioLimitsSpec params).1 ≤
        ((boundingRect c.points).w : ℚ) / ((boundingRect c.points).h : ℚ) ∧
      ((boundingRect c.points).w : ℚ) / ((boundingRect c.points).h : ℚ) ≤
        (ratioLimitsSpec params).2))

/-- C3: provided a custom sub-kind comes with a custom range, the limits
lookup returns exactly the spec's table interval, and a rectangle contour is
kept — appending its bounding box — precisely when its area is in range, its
4%-of-perimeter approximation has 4 vertices, its box height is nonzero, and
its width/height quotient lies in that interval. -/
theorem rectangle_branch_characterization (c : Contour)
    (params : PDIShapeDetectionParameters) (bs : List Box)
    (hc : params.rectangle_type = RectangleType.custom →
      ∃ a, params.customR = some a) :
    getAspectRatioLimits params = Except.ok (ratioLimitsSpec params) ∧
    processRectangleContour c params bs =
      Except.ok
        (if rectangleAcceptSpec params c then bs ++ [boundingRect c.points]
         else bs) := by
  have hL : getAspectRatioLimits params = Except.ok (ratioLimitsSpec params) := by
    cases ht : params.rectangle_type
    case custom =>
      obtain ⟨a, ha⟩ := hc ht
      simp [getAspectRatioLimits, ratioLimitsSpec, ht, ha]
    all_goals simp [getAspectRatioLimits, ratioLimitsSpec, ht]
  refine ⟨hL, ?_⟩
  have hnn : 0 ≤ (boundingRect c.points).h := boundingRect_h_nonneg c.points
  by_cases h1 : areaInRange params.min_area params.max_area c = true
  · by_cases h2 : (c.approxAt (4/100 * c.arcLen)).length = 4
    · by_cases h3 : 0 < (boundingRect c.points).h
      · by_cases h4 : (ratioLimitsSpec params).1 ≤
            ((boundingRect c.points).w : ℚ) / ((boundingRect c.points).h : ℚ) ∧
            ((boundingRect c.points).w : ℚ) / ((boundingRect c.points).h : ℚ) ≤
              (ratioLimitsSpec params).2
        · simp [processRectangleContour, rectangleAcceptSpec, h1, h2, h3, h4,
            hL, okBind, pureOk, ne_of_gt h3]
        · simp [processRectangleContour, rectangleAcceptSpec, h1, h2, h3, h4,
            hL, okBind, pureOk]
      · have h0 : (boundingRect c.points).h = 0 :=
          le_antisymm (not_lt.mp h3) hnn
        simp [processRectangleContour, rectangleAcceptSpec, h1, h2, h3, h0,
          pureOk]
    · simp [processRectangleContour, rectangleAcceptSpec, h1, h2, pureOk]
  · simp [processRectangleContour, rectangleAcceptSpec, h1, pureOk]

/-- Witness for C3 at a concrete input: a custom sub-kind carrying the range
`[1/2, 2]` applied to the square contour. -/
theorem rectangle_branch_characterization_witness :
    ((⟨PDIShapeDetectionShape.rectangle, RectangleType.custom, 0, 1000,
        some ⟨1/2, 2⟩⟩ :
          PDIShapeDetectionParameters).rectangle_type =
        RectangleType.custom →
      ∃ a, (⟨PDIShapeDetectionShape.rectangle, RectangleType.custom, 0, 1000,
        some ⟨1/2, 2⟩⟩ :
          PDIShapeDetectionParameters).customR = some a) ∧
    (getAspectRatioLimits
        ⟨PDIShapeDetectionShape.rectangle, RectangleType.custom, 0, 1000,
          some ⟨1/2, 2⟩⟩ =
      Except.ok
        (ratioLimitsSpec
          ⟨PDIShapeDetectionShape.rectangle, RectangleType.custom, 0, 1000,
            some ⟨1/2, 2⟩⟩) ∧
    processRectangleContour squareContour
        ⟨PDIShapeDetectionShape.rectangle, RectangleType.custom, 0, 1000,
          some ⟨1/2, 2⟩⟩ [] =
      Except.ok
        (if rectangleAcceptSpec
            ⟨PDIShapeDetectionShape.rectangle, RectangleType.custom, 0, 1000,
              some ⟨1/2, 2⟩⟩ squareContour then
          [] ++ [boundingRect squareContour.points]
         else [])) :=
  ⟨fun _ => ⟨⟨1/2, 2⟩, rfl⟩,
    rectangle_branch_characterization squareContour
      ⟨PDIShapeDetectionShape.rectangle, RectangleType.custom, 0, 1000,
        some ⟨1/2, 2⟩⟩ [] (fun _ => ⟨⟨1/2, 2⟩, rfl⟩)⟩

/-- C8 counterexample: a Hough detection with radius 0 (validated because a
contour overlaps its single rasterized pixel and `min_area = 0 ≤ 0 = area`)
makes the circle branch emit the degenerate box `(5, 5, 0, 0)`, whose width
is not strictly positive. -/
theorem zero_radius_box_counterexample :
    processDetectedCircles (unitOps [] none 1) (314/100) [⟨5, 5, 0⟩]
        [squareContour]
        ⟨PDIShapeDetectionShape.circle, RectangleType.any, 0, 100, none⟩ =
      [⟨5, 5, 0, 0⟩] ∧
    ¬ (0 < (⟨5, 5, 0, 0⟩ : Box).w) := by
  constructor
  · norm_num [processDetectedCircles, validateCircle, circleOf, circleBox,
      unitOps]
  · decide

/-- C8 (amended): all contour-derived boxes (colour segmentation, triangle
branch, rectangle branch) have strictly positive width and height because
nonempty contours have bounding rectangles of size at least 1×1; circle
boxes are `2r × 2r` and are strictly positive provided every detected circle
has radius at least 1 — a validated radius-0 circle instead yields a
degenerate 0×0 box. -/
theorem boxes_positive_amended {Img : Type} (ops : CVOps Img) (piF : ℚ) :
    (∀ (contours : List Contour) (minA maxA : ℤ),
      (∀ c ∈ contours, c.points ≠ []) →
      ∀ b ∈ findBoundingBoxesCore contours minA maxA, 0 < b.w ∧ 0 < b.h) ∧
    (∀ (contours : List Contour) (params : PDIShapeDetectionParameters),
      (∀ c ∈ contours, c.points ≠ []) →
      ∀ b ∈ detectTrianglesCore contours params, 0 < b.w ∧ 0 < b.h) ∧
    (∀ (c : Contour) (params : PDIShapeDetectionParameters)
        (acc boxes : List Box),
      c.points ≠ [] →
      processRectangleContour c params acc = Except.ok boxes →
      ∀ b ∈ boxes, b ∈ acc ∨ (0 < b.w ∧ 0 < b.h)) ∧
    (∀ (circles : List HoughCircle) (contours : List Contour)
        (params : PDIShapeDetectionParameters),
      (∀ hc ∈ circles, 1 ≤ hc.r) →
      ∀ b ∈ processDetectedCircles ops piF circles contours params,
        0 < b.w ∧ 0 < b.h) := by
  have hrect : ∀ (c : Contour), c.points ≠ [] →
      0 < (boundingRect c.points).w ∧ 0 < (boundingRect c.points).h := by
    intro c hne
    cases hps : c.points with
    | nil => exact absurd hps hne
    | cons p rest =>
        exact ⟨boundingRect_w_pos p rest, boundingRect_h_pos p rest⟩
  refine ⟨?_, ?_, ?_, ?_⟩
  · intro contours minA maxA hpts b hb
    rw [findBoundingBoxesCore, foldl_append_eq_filter_map] at hb
    simp only [List.nil_append, List.mem_map, List.mem_filter] at hb
    obtain ⟨c, ⟨hcmem, _⟩, rfl⟩ := hb
    exact hrect c (hpts c hcmem)
  · intro contours params hpts b hb
    rw [detectTrianglesCore, foldl_append_eq_filter_map] at hb
    simp only [List.nil_append, List.mem_map, List.mem_filter] at hb
    obtain ⟨c, ⟨hcmem, _⟩, rfl⟩ := hb
    exact hrect c (hpts c hcmem)
  · intro c params acc boxes hne hok b hb
    by_cases h1 : areaInRange params.min_area params.max_area c = true
    · by_cases h2 : (c.approxAt (4/100 * c.arcLen)).length = 4
      · by_cases h3 : 0 < (boundingRect c.points).h
        · cases hL : getAspectRatioLimits params with
          | error e =>
              simp [processRectangleContour, h1, h2, h3, hL, errorBind]
                at hok
          | ok limits =>
              by_cases h4 : limits.1 ≤
                  ((boundingRect c.points).w : ℚ) /
                    ((boundingRect c.points).h : ℚ) ∧
                  ((boundingRect c.points).w : ℚ) /
                    ((boundingRect c.points).h : ℚ) ≤ limits.2
              · simp [processRectangleContour, h1, h2, h3, hL, h4, okBind,
                  pureOk] at hok
                subst hok
                rcases List.mem_append.mp hb with hin | hone
                · exact Or.inl hin
                · rcases List.mem_singleton.mp hone with rfl
                  exact Or.inr (hrect c hne)
              · simp [processRectangleContour, h1, h2, h3, hL, h4, okBind,
                  pureOk] at hok
                subst hok
                exact Or.inl hb
        · simp [processRectangleContour, h1, h2, h3, pureOk] at hok
          subst hok
          exact Or.inl hb
      · simp [processRectangleContour, h1, h2, pureOk] at hok
        subst hok
        exact Or.inl hb
    · simp [processRectangleContour, h1, pureOk] at hok
      subst hok
      exact Or.inl hb
  · intro circles contours params hr b hb
    rw [processDetectedCircles, foldl_append_eq_filter_map] at hb
    simp only [List.nil_append, List.mem_map, List.mem_filter] at hb
    obtain ⟨hc, ⟨hcmem, _⟩, rfl⟩ := hb
    have h1 := hr hc hcmem
    constructor
    · simp only [circleBox, circleOf]
      omega
    · simp only [circleBox, circleOf]
      omega

/-- Witness for the amended C8: its instantiation at the trivial raster
primitives and the float π stand-in `314/100`. -/
theorem boxes_positive_amended_witness :
    (∀ (contours : List Contour) (minA maxA : ℤ),
      (∀ c ∈ contours, c.points ≠ []) →
      ∀ b ∈ findBoundingBoxesCore contours minA maxA, 0 < b.w ∧ 0 < b.h) ∧
    (∀ (contours : List Contour) (params : PDIShapeDetectionParameters),
      (∀ c ∈ contours, c.points ≠ []) →
      ∀ b ∈ detectTrianglesCore contours params, 0 < b.w ∧ 0 < b.h) ∧
    (∀ (c : Contour) (params : PDIShapeDetectionParameters)
        (acc boxes : List Box),
      c.points ≠ [] →
      processRectangleContour c params acc = Except.ok boxes →
      ∀ b ∈ boxes, b ∈ acc ∨ (0 < b.w ∧ 0 < b.h)) ∧
    (∀ (circles : List HoughCircle) (contours : List Contour)
        (params : PDIShapeDetectionParameters),
      (∀ hc ∈ circles, 1 ≤ hc.r) →
      ∀ b ∈ processDetectedCircles (unitOps [] none 1) (314/100) circles
          contours params,
        0 < b.w ∧ 0 < b.h) :=
  boxes_positive_amended (unitOps [] none 1) (314/100)

end PDI
